import Mathlib

set_option maxRecDepth 100000

/-!
Verification development for the flagd web provider
(`libs/providers/flagd-web/src/lib/flagd-web-provider.ts`).

The development shallowly embeds the provider's data model and operations:
JavaScript values that flow through `JSON.stringify` are modelled by an
inductive `Json` type whose object fields are ordered lists (JavaScript
property insertion order); the MD5 hash used for request fingerprints
(`ts-md5`'s `Md5.hashStr`) is implemented in full over byte lists; the
`node-cache` store is modelled as an association list together with the
size-threshold "set" listener installed by the provider's constructor; and
the event-stream callbacks and the four `resolve*Evaluation` methods are
embedded as pure state-passing functions.
-/

namespace FlagdWeb

/-! ## JSON values

`Json` models the JavaScript values the provider serializes.  Object fields
are kept as an ordered list of key/value pairs: `JSON.stringify` emits the
properties of a plain JavaScript object in insertion order (for non
integer-like keys), so the order of the list is observable in the serialized
text.  Numbers are restricted to integers exactly representable as doubles,
which `JSON.stringify` prints without a decimal point. -/

inductive Json where
  | null
  | bool (b : Bool)
  | num (n : Int)
  | str (s : String)
  | arr (items : List Json)
  | obj (fields : List (String × Json))

/-- JSON string escaping as performed by `JSON.stringify`: quote, backslash
and control characters are escaped; other characters (ASCII in all inputs
considered here) pass through unchanged. -/
def escapeChar (c : Char) : String :=
  if c = '"' then "\\\""
  else if c = '\\' then "\\\\"
  else if c = '\n' then "\\n"
  else if c = '\t' then "\\t"
  else if c = '\r' then "\\r"
  else if c.toNat < 32 then
    "\\u00" ++ String.mk [(Nat.digitChar (c.toNat / 16)), (Nat.digitChar (c.toNat % 16))]
  else String.singleton c

def escapeString (s : String) : String :=
  "\"" ++ String.join (s.data.map escapeChar) ++ "\""

mutual
/-- `JSON.stringify` on a JavaScript value (no indentation, no replacer). -/
def jsonStringify : Json → String
  | .null => "null"
  | .bool true => "true"
  | .bool false => "false"
  | .num n => toString n
  | .str s => escapeString s
  | .arr items => "[" ++ stringifyItems items ++ "]"
  | .obj fields => "\x7b" ++ stringifyFields fields ++ "\x7d"

def stringifyItems : List Json → String
  | [] => ""
  | [x] => jsonStringify x
  | x :: xs => jsonStringify x ++ "," ++ stringifyItems xs

def stringifyFields : List (String × Json) → String
  | [] => ""
  | [(k, v)] => escapeString k ++ ":" ++ jsonStringify v
  | (k, v) :: xs => escapeString k ++ ":" ++ jsonStringify v ++ "," ++ stringifyFields xs
end

end FlagdWeb

/-! ## MD5 (model of the `ts-md5` package's `Md5.hashStr`)

A complete implementation of MD5 (RFC 1321) over byte lists, using `Nat`
arithmetic with explicit reduction modulo `2^32`.  `ts-md5` encodes the
input string to bytes before hashing; for strings of code points below 128
(all inputs in this development) that encoding is the identity on character
codes. -/

namespace Md5

/-- 32-bit truncation. -/
def m32 (x : Nat) : Nat := x % 4294967296

/-- 32-bit left rotation. -/
def rotl (x n : Nat) : Nat :=
  m32 ((x <<< n) + (x >>> (32 - n)))

/-- 32-bit bitwise complement (`x < 2^32` implies `2^32 - 1 - x = NOT x`). -/
def not32 (x : Nat) : Nat := 4294967295 - x

/-- The 64 sine-derived round constants `T[i] = floor(|sin(i+1)| * 2^32)`. -/
def T : List Nat :=
  [0xd76aa478, 0xe8c7b756, 0x242070db, 0xc1bdceee,
   0xf57c0faf, 0x4787c62a, 0xa8304613, 0xfd469501,
   0x698098d8, 0x8b44f7af, 0xffff5bb1, 0x895cd7be,
   0x6b901122, 0xfd987193, 0xa679438e, 0x49b40821,
   0xf61e2562, 0xc040b340, 0x265e5a51, 0xe9b6c7aa,
   0xd62f105d, 0x02441453, 0xd8a1e681, 0xe7d3fbc8,
   0x21e1cde6, 0xc33707d6, 0xf4d50d87, 0x455a14ed,
   0xa9e3e905, 0xfcefa3f8, 0x676f02d9, 0x8d2a4c8a,
   0xfffa3942, 0x8771f681, 0x6d9d6122, 0xfde5380c,
   0xa4beea44, 0x4bdecfa9, 0xf6bb4b60, 0xbebfbc70,
   0x289b7ec6, 0xeaa127fa, 0xd4ef3085, 0x04881d05,
   0xd9d4d039, 0xe6db99e5, 0x1fa27cf8, 0xc4ac5665,
   0xf4292244, 0x432aff97, 0xab9423a7, 0xfc93a039,
   0x655b59c3, 0x8f0ccc92, 0xffeff47d, 0x85845dd1,
   0x6fa87e4f, 0xfe2ce6e0, 0xa3014314, 0x4e0811a1,
   0xf7537e82, 0xbd3af235, 0x2ad7d2bb, 0xeb86d391]

/-- Per-round left-rotation amounts. -/
def S : List Nat :=
  [7, 12, 17, 22, 7, 12, 17, 22, 7, 12, 17, 22, 7, 12, 17, 22,
   5, 9, 14, 20, 5, 9, 14, 20, 5, 9, 14, 20, 5, 9, 14, 20,
   4, 11, 16, 23, 4, 11, 16, 23, 4, 11, 16, 23, 4, 11, 16, 23,
   6, 10, 15, 21, 6, 10, 15, 21, 6, 10, 15, 21, 6, 10, 15, 21]

/-- The round function and message-word index for step `i` applied to the
working registers `b, c, d`. -/
def roundMix (i b c d : Nat) : Nat × Nat :=
  if i < 16 then ((b &&& c) ||| (not32 b &&& d), i)
  else if i < 32 then ((d &&& b) ||| (not32 d &&& c), (5 * i + 1) % 16)
  else if i < 48 then (b ^^^ c ^^^ d, (3 * i + 5) % 16)
  else (c ^^^ (b ||| not32 d), (7 * i) % 16)

/-- One of the 64 steps of the compression function.  `m` is the block's
16-word schedule, the state is the register quadruple `(a, b, c, d)`. -/
def step (m : List Nat) (st : Nat × Nat × Nat × Nat) (i : Nat) :
    Nat × Nat × Nat × Nat :=
  let (a, b, c, d) := st
  let (f, g) := roundMix i b c d
  let t := m32 (a + f + T.getD i 0 + m.getD g 0)
  (d, m32 (b + rotl t (S.getD i 0)), b, c)

/-- Group a byte list into little-endian 32-bit words (4 bytes each). -/
def leWords : List Nat → List Nat
  | b0 :: b1 :: b2 :: b3 :: rest =>
      (b0 + b1 * 256 + b2 * 65536 + b3 * 16777216) :: leWords rest
  | _ => []

/-- The 8-byte little-endian encoding of the bit length. -/
def lenBytes (bits : Nat) : List Nat :=
  (List.range 8).map (fun i => (bits >>> (8 * i)) % 256)

/-- MD5 padding: a `0x80` byte, zero bytes up to 56 mod 64, then the
64-bit little-endian bit length of the original message. -/
def pad (msg : List Nat) : List Nat :=
  let zeros := (120 - (msg.length + 1) % 64) % 64
  msg ++ [0x80] ++ List.replicate zeros 0 ++ lenBytes (msg.length * 8)

/-- Compress one 64-byte block into the chaining state. -/
def compress (st : Nat × Nat × Nat × Nat) (block : List Nat) :
    Nat × Nat × Nat × Nat :=
  let m := leWords block
  let (a, b, c, d) := (List.range 64).foldl (step m) st
  let (a0, b0, c0, d0) := st
  (m32 (a0 + a), m32 (b0 + b), m32 (c0 + c), m32 (d0 + d))

/-- Split a padded message into 64-byte blocks, accumulating the current
block (the padded message's length is a multiple of 64). -/
def blocksAux (cur : List Nat) : List Nat → List (List Nat)
  | [] => []
  | b :: rest =>
    let cur' := cur ++ [b]
    if cur'.length = 64 then cur' :: blocksAux [] rest
    else blocksAux cur' rest

def blocks (bytes : List Nat) : List (List Nat) := blocksAux [] bytes

/-- Lowercase hexadecimal digit. -/
def hexDigit (n : Nat) : Char :=
  if n < 10 then Char.ofNat (48 + n) else Char.ofNat (87 + n % 16)

/-- A 32-bit word rendered as 8 hex characters, bytes in little-endian
order (MD5 digest convention). -/
def wordHexLE (w : Nat) : String :=
  String.mk ((List.range 4).flatMap (fun i =>
    let b := (w >>> (8 * i)) % 256
    [hexDigit (b / 16), hexDigit (b % 16)]))

/-- MD5 of a byte list, as the usual 32-character lowercase hex string. -/
def hashBytes (msg : List Nat) : String :=
  let init := (0x67452301, 0xefcdab89, 0x98badcfe, 0x10325476)
  let (a, b, c, d) := (blocks (pad msg)).foldl compress init
  wordHexLE a ++ wordHexLE b ++ wordHexLE c ++ wordHexLE d

/-- `Md5.hashStr` of `ts-md5`, restricted to strings whose code points are
below 128 (its UTF-8 encoding step is then the identity on char codes). -/
def hashStr (s : String) : String :=
  hashBytes (s.data.map Char.toNat)

end Md5

namespace FlagdWeb

/-! ## Constants

String constants from the provider module and from the OpenFeature js-sdk
enums it imports. -/

def ERROR_DISABLED : String := "DISABLED"

def EVENT_CONFIGURATION_CHANGE : String := "configuration_change"

def EVENT_PROVIDER_READY : String := "provider_ready"

def ERROR_CONNECTION_ERROR : String := "CONNECTION_ERROR"

/-- `StandardResolutionReasons.ERROR` from the OpenFeature js-sdk. -/
def REASON_ERROR : String := "ERROR"

def ErrorCode.PROVIDER_NOT_READY : String := "PROVIDER_NOT_READY"

def ErrorCode.FLAG_NOT_FOUND : String := "FLAG_NOT_FOUND"

def ErrorCode.TYPE_MISMATCH : String := "TYPE_MISMATCH"

def ErrorCode.PARSE_ERROR : String := "PARSE_ERROR"

def ErrorCode.GENERAL : String := "GENERAL"

/-! ## Resolution details and the cache

The provider stores `ResolutionDetails` objects (`{ value, reason, variant }`
on success) in a `node-cache` instance keyed by the request fingerprint.
The cache is modelled as an association list in insertion order; `reason`
and `variant` are `Option`-valued because the error branches construct
objects without a `variant` (and with an `errorCode`). -/

/-- The value carried by a resolution: one of the four flag-value kinds
(numbers restricted to integers exactly representable as doubles). -/
inductive FlagValue where
  | b (v : Bool)
  | s (v : String)
  | n (v : Int)
  | o (v : Json)

structure ResolutionDetails where
  value : FlagValue
  reason : String
  variant : Option String := none
  errorCode : Option String := none

abbrev Cache := List (String × ResolutionDetails)

/-- `cache.get(key)`: the stored entry, or `none` (`undefined`). -/
def cacheGet (c : Cache) (k : String) : Option ResolutionDetails :=
  (c.find? (fun e => e.1 == k)).map Prod.snd

/-- `cache.keys()`: a snapshot of the stored keys. -/
def cacheKeys (c : Cache) : List String := c.map Prod.fst

/-- `cache.del(key)`: remove the entry stored under `key`. -/
def cacheDel (c : Cache) (k : String) : Cache :=
  c.filter (fun e => e.1 != k)

/-- A bare `cache.set(key, value)`: overwrite in place or append. -/
def cacheSetRaw (c : Cache) (k : String) (v : ResolutionDetails) : Cache :=
  if c.any (fun e => e.1 == k) then
    c.map (fun e => if e.1 == k then (k, v) else e)
  else c ++ [(k, v)]

/-- The `getStats` aggregate estimate consulted by the constructor's "set"
listener: key bytes (`ksize`) plus value bytes (`vsize`) across all
entries.  The per-value byte estimate `vs` (node-cache's rough object size)
is a parameter of the model. -/
def cacheStatsSize (vs : ResolutionDetails → Nat) (c : Cache) : Nat :=
  (c.map (fun e => e.1.length + vs e.2)).sum

/-- `cache.set(key, value)` together with the "set" listener registered by
the provider constructor when `cacheMaxBytes != 0`: after the insertion,
if `ksize + vsize` exceeds `cacheMaxBytes`, the entire cache is flushed. -/
def cacheSet (cacheMaxBytes : Nat) (vs : ResolutionDetails → Nat)
    (c : Cache) (k : String) (v : ResolutionDetails) : Cache :=
  let c' := cacheSetRaw c k v
  if cacheMaxBytes ≠ 0 then
    if cacheStatsSize vs c' > cacheMaxBytes then [] else c'
  else c'

/-! ## Request fingerprints -/

/-- `JSON.stringify(req.context)` where
`req.context = Struct.fromJsonString(JSON.stringify(ctx))`:
protobuf-es messages implement `toJSON` via their proto3 JSON form, and a
`google.protobuf.Struct` parsed from JSON text round-trips to the same
JSON value with field order preserved (numbers here are restricted to
integers exactly representable as doubles, which print identically on both
sides), so the composite equals `JSON.stringify(ctx)`. -/
def serializeContext (ctx : Json) : String := jsonStringify ctx

/-- The composite cache key computed by every resolver:
`` `${flagKey}--${Md5.hashStr(JSON.stringify(req.context))}` ``. -/
def reqHash (flagKey : String) (ctx : Json) : String :=
  flagKey ++ "--" ++ Md5.hashStr (serializeContext ctx)

/-- `key.split("--")[0]`: the characters before the first occurrence of
`"--"` (the whole key when the separator does not occur). -/
def keySegAux : List Char → List Char
  | [] => []
  | '-' :: '-' :: _ => []
  | c :: rest => c :: keySegAux rest

def keySeg (k : String) : String := String.mk (keySegAux k.data)

/-! ## Provider state and the remote collaborator -/

/-- The mutable fields of `FlagdWebProvider` involved in the claims.
`cacheMaxBytes` is fixed at construction and carried here so that
`cache.set` can consult it. -/
structure ProviderState where
  providerReady : Bool
  connectionError : Bool
  cacheActive : Bool
  cacheMaxBytes : Nat
  cache : Cache

/-- The members of `@bufbuild/connect-web`'s `Code` enum named in
`ErrorResponse`; `otherCode` stands for every remaining member (Canceled,
Unknown, DeadlineExceeded, ...), all of which reach the default branch. -/
inductive ConnectCode where
  | notFound
  | invalidArgument
  | unavailable
  | dataLoss
  | otherCode

/-- A rejected remote call.  The caught value has type `unknown`;
`ErrorResponse` reads `err.code`, which is absent (`none`) when the
failure is not a `ConnectError`. -/
structure RemoteFailure where
  code : Option ConnectCode

/-- The provider's `ErrorResponse` error-code mapping. -/
def ErrorResponse (err : RemoteFailure) : String :=
  match err.code with
  | some .notFound => ErrorCode.FLAG_NOT_FOUND
  | some .invalidArgument => ErrorCode.TYPE_MISMATCH
  | some .unavailable => ERROR_DISABLED
  | some .dataLoss => ErrorCode.PARSE_ERROR
  | _ => ErrorCode.GENERAL

/-- A successful response of `resolveBoolean` / `resolveString` /
`resolveFloat` (proto3 scalar fields are always present). -/
structure RemoteResponse (α : Type) where
  value : α
  reason : String
  variant : String

/-- A successful response of `resolveObject`: the `value` Struct field is
optional on the wire. -/
structure ObjectResponse where
  value : Option Json
  reason : String
  variant : String

/-- The observable outcome of one resolution call: the returned details,
the provider's cache afterwards, the number of remote invocations made
(0 or 1), and whether the readiness-gate branch was taken.  The last two
fields are observability instrumentation (the "call counter on a test
double" of the specification). -/
structure ResolveOutcome where
  details : ResolutionDetails
  cache : Cache
  networkCalls : Nat
  gated : Bool

end FlagdWeb

namespace FlagdWeb

/-! ## The four resolution methods

Each `resolve*Evaluation` method is embedded as a pure function of the
provider state, the call arguments, and the outcome the remote client
would deliver for this request (`Except`: `.error` models a rejected
promise, caught by the method's `catch` branch). -/

def resolveBooleanEvaluation (vs : ResolutionDetails → Nat) (st : ProviderState)
    (flagKey : String) (defaultValue : Bool) (transformedContext : Json)
    (remote : Except RemoteFailure (RemoteResponse Bool)) : ResolveOutcome :=
  if !st.providerReady then
    { details := { value := .b defaultValue, reason := REASON_ERROR,
                   errorCode := some (if st.connectionError then ERROR_CONNECTION_ERROR
                                      else ErrorCode.PROVIDER_NOT_READY) },
      cache := st.cache, networkCalls := 0, gated := true }
  else
    let key := reqHash flagKey transformedContext
    match st.cacheActive, cacheGet st.cache key with
    | true, some hit =>
      { details := hit, cache := st.cache, networkCalls := 0, gated := false }
    | _, _ =>
      match remote with
      | .ok res =>
        let resDetails : ResolutionDetails :=
          { value := .b res.value, reason := res.reason, variant := some res.variant }
        { details := resDetails,
          cache := if st.cacheActive then cacheSet st.cacheMaxBytes vs st.cache key resDetails
                   else st.cache,
          networkCalls := 1, gated := false }
      | .error err =>
        { details := { value := .b defaultValue, reason := REASON_ERROR,
                       errorCode := some (ErrorResponse err) },
          cache := st.cache, networkCalls := 1, gated := false }

def resolveStringEvaluation (vs : ResolutionDetails → Nat) (st : ProviderState)
    (flagKey : String) (defaultValue : String) (transformedContext : Json)
    (remote : Except RemoteFailure (RemoteResponse String)) : ResolveOutcome :=
  if !st.providerReady then
    { details := { value := .s defaultValue, reason := REASON_ERROR,
                   errorCode := some (if st.connectionError then ERROR_CONNECTION_ERROR
                                      else ErrorCode.PROVIDER_NOT_READY) },
      cache := st.cache, networkCalls := 0, gated := true }
  else
    let key := reqHash flagKey transformedContext
    match st.cacheActive, cacheGet st.cache key with
    | true, some hit =>
      { details := hit, cache := st.cache, networkCalls := 0, gated := false }
    | _, _ =>
      match remote with
      | .ok res =>
        let resDetails : ResolutionDetails :=
          { value := .s res.value, reason := res.reason, variant := some res.variant }
        { details := resDetails,
          cache := if st.cacheActive then cacheSet st.cacheMaxBytes vs st.cache key resDetails
                   else st.cache,
          networkCalls := 1, gated := false }
      | .error err =>
        { details := { value := .s defaultValue, reason := REASON_ERROR,
                       errorCode := some (ErrorResponse err) },
          cache := st.cache, networkCalls := 1, gated := false }

def resolveNumberEvaluation (vs : ResolutionDetails → Nat) (st : ProviderState)
    (flagKey : String) (defaultValue : Int) (transformedContext : Json)
    (remote : Except RemoteFailure (RemoteResponse Int)) : ResolveOutcome :=
  if !st.providerReady then
    { details := { value := .n defaultValue, reason := REASON_ERROR,
                   errorCode := some (if st.connectionError then ERROR_CONNECTION_ERROR
                                      else ErrorCode.PROVIDER_NOT_READY) },
      cache := st.cache, networkCalls := 0, gated := true }
  else
    let key := reqHash flagKey transformedContext
    match st.cacheActive, cacheGet st.cache key with
    | true, some hit =>
      { details := hit, cache := st.cache, networkCalls := 0, gated := false }
    | _, _ =>
      match remote with
      | .ok res =>
        let resDetails : ResolutionDetails :=
          { value := .n res.value, reason := res.reason, variant := some res.variant }
        { details := resDetails,
          cache := if st.cacheActive then cacheSet st.cacheMaxBytes vs st.cache key resDetails
                   else st.cache,
          networkCalls := 1, gated := false }
      | .error err =>
        { details := { value := .n defaultValue, reason := REASON_ERROR,
                       errorCode := some (ErrorResponse err) },
          cache := st.cache, networkCalls := 1, gated := false }

/-- `resolveObjectEvaluation` has the extra branch for a response without a
`value` payload: the caller's default is returned with the service-supplied
reason/variant and nothing is cached.  A present payload round-trips
through `JSON.parse(res.value.toJsonString())`, the identity on the
modelled JSON fragment. -/
def resolveObjectEvaluation (vs : ResolutionDetails → Nat) (st : ProviderState)
    (flagKey : String) (defaultValue : Json) (transformedContext : Json)
    (remote : Except RemoteFailure ObjectResponse) : ResolveOutcome :=
  if !st.providerReady then
    { details := { value := .o defaultValue, reason := REASON_ERROR,
                   errorCode := some (if st.connectionError then ERROR_CONNECTION_ERROR
                                      else ErrorCode.PROVIDER_NOT_READY) },
      cache := st.cache, networkCalls := 0, gated := true }
  else
    let key := reqHash flagKey transformedContext
    match st.cacheActive, cacheGet st.cache key with
    | true, some hit =>
      { details := hit, cache := st.cache, networkCalls := 0, gated := false }
    | _, _ =>
      match remote with
      | .ok res =>
        match res.value with
        | some v =>
          let resDetails : ResolutionDetails :=
            { value := .o v, reason := res.reason, variant := some res.variant }
          { details := resDetails,
            cache := if st.cacheActive then cacheSet st.cacheMaxBytes vs st.cache key resDetails
                     else st.cache,
            networkCalls := 1, gated := false }
        | none =>
          { details := { value := .o defaultValue, reason := res.reason,
                         variant := some res.variant },
            cache := st.cache, networkCalls := 1, gated := false }
      | .error err =>
        { details := { value := .o defaultValue, reason := REASON_ERROR,
                       errorCode := some (ErrorResponse err) },
          cache := st.cache, networkCalls := 1, gated := false }

/-! ## The event-stream callbacks of `initStream` -/

/-- An inbound message of the event stream.  `data` is the optional
payload Struct; `message.data?.toJsonString()` is `undefined` exactly when
`data` is absent, and otherwise yields JSON text that `JSON.parse` turns
back into the payload value. -/
structure EventStreamMessage where
  type : String
  data : Option Json

/-- Property access `body.flagKey` on the parsed payload, as used by the
strict comparison `body.flagKey === prefix`: the comparison can only
succeed when the property is present and a string. -/
def getStringField (j : Json) (field : String) : Option String :=
  match j with
  | .obj fields =>
    match fields.find? (fun e => e.1 == field) with
    | some (_, .str s) => some s
    | _ => none
  | _ => none

/-- The deletion loop of the `configuration_change` handler: iterate over a
snapshot of the cache's keys and delete each key whose first `"--"`-segment
is strictly equal to `body.flagKey` (an absent or non-string `flagKey`
matches no key). -/
def configChangeSweep (bodyFlagKey : Option String) (c : Cache) : Cache :=
  (cacheKeys c).foldl
    (fun acc k => if bodyFlagKey = some (keySeg k) then cacheDel acc k else acc) c

/-- The message callback of `initStream`: `provider_ready` records
readiness; `configuration_change` flushes the whole cache when the payload
is absent and otherwise runs the targeted deletion loop; any other message
type is ignored.  The callback always returns normally (the connection
task is never failed by a message). -/
def handleStreamMessage (st : ProviderState) (message : EventStreamMessage) :
    ProviderState :=
  if message.type == EVENT_PROVIDER_READY then
    { st with providerReady := true }
  else if message.type == EVENT_CONFIGURATION_CHANGE then
    match message.data with
    | none => { st with cache := [] }
    | some d => { st with cache := configChangeSweep (getStringField d "flagKey") st.cache }
  else st

/-- The stream-termination callback of `initStream(i, maxRetries)`: when
`i != maxRetries` it schedules a retry (waiting, then re-invoking
`initStream(i + 1, maxRetries)`), touching no provider field; otherwise it
records the terminal connection failure.  The cache is not touched on
either branch. -/
def handleStreamTermination (st : ProviderState) (i maxRetries : Nat) :
    ProviderState :=
  if i ≠ maxRetries then st
  else { st with connectionError := true }

/-- The observable trace of the retry loop when every connection attempt
fails: total attempts, the waits between consecutive attempts, and the
final connection-error flag. -/
structure RetryTrace where
  attempts : Nat
  delays : List ℚ
  connectionError : Bool

/-- The all-attempts-fail execution of `initStream(i, maxRetries)`: each
invocation opens the stream once (one attempt); on termination, when
`i != maxRetries`, it waits `(i + 1) * Math.random() * 300` milliseconds
and recurses with `i + 1`, and otherwise sets the terminal
connection-error flag.  `rand` is the sequence of `Math.random()` draws.
The argument `h` carries the reachability invariant `i <= maxRetries`
(calls start at `i = 0` and increment by 1). -/
def initStreamFailTrace (rand : Nat → ℚ) (maxRetries : Nat) (i : Nat)
    (h : i ≤ maxRetries) : RetryTrace :=
  if hEq : i ≠ maxRetries then
    let rest := initStreamFailTrace rand maxRetries (i + 1) (by omega)
    { attempts := 1 + rest.attempts,
      delays := ((i : ℚ) + 1) * rand i * 300 :: rest.delays,
      connectionError := rest.connectionError }
  else
    { attempts := 1, delays := [], connectionError := true }
termination_by maxRetries - i
decreasing_by omega

/-! ## All state-mutating operations of one provider instance -/

/-- One operation on a constructed provider instance: an inbound stream
message, a stream termination, or one of the four resolution calls (whose
only state effect is through the cache). -/
inductive ProviderOp where
  | streamMessage (message : EventStreamMessage)
  | streamTermination (i maxRetries : Nat)
  | resolveBoolean (vs : ResolutionDetails → Nat) (flagKey : String)
      (defaultValue : Bool) (ctx : Json)
      (remote : Except RemoteFailure (RemoteResponse Bool))
  | resolveString (vs : ResolutionDetails → Nat) (flagKey : String)
      (defaultValue : String) (ctx : Json)
      (remote : Except RemoteFailure (RemoteResponse String))
  | resolveNumber (vs : ResolutionDetails → Nat) (flagKey : String)
      (defaultValue : Int) (ctx : Json)
      (remote : Except RemoteFailure (RemoteResponse Int))
  | resolveObject (vs : ResolutionDetails → Nat) (flagKey : String)
      (defaultValue : Json) (ctx : Json)
      (remote : Except RemoteFailure ObjectResponse)

/-- The state transition performed by one operation. -/
def applyOp (st : ProviderState) : ProviderOp → ProviderState
  | .streamMessage message => handleStreamMessage st message
  | .streamTermination i maxRetries => handleStreamTermination st i maxRetries
  | .resolveBoolean vs k d c r =>
    { st with cache := (resolveBooleanEvaluation vs st k d c r).cache }
  | .resolveString vs k d c r =>
    { st with cache := (resolveStringEvaluation vs st k d c r).cache }
  | .resolveNumber vs k d c r =>
    { st with cache := (resolveNumberEvaluation vs st k d c r).cache }
  | .resolveObject vs k d c r =>
    { st with cache := (resolveObjectEvaluation vs st k d c r).cache }

end FlagdWeb

namespace FlagdWeb

/-! ## Helper lemmas -/

/-- Looking a key up right after `cacheSetRaw` stored it finds the stored
value. -/
theorem cacheGet_setRaw_self (c : Cache) (k : String) (v : ResolutionDetails) :
    cacheGet (cacheSetRaw c k v) k = some v := by
  unfold cacheSetRaw
  by_cases hany : c.any (fun e => e.1 == k) = true
  · rw [if_pos hany]
    induction c with
    | nil => simp at hany
    | cons e c ih =>
      cases hek : (e.1 == k) with
      | false =>
        simp only [List.any_cons, hek, Bool.false_or] at hany
        simpa [cacheGet, List.find?, hek] using ih hany
      | true =>
        simp [cacheGet, List.find?, hek]
  · rw [if_neg hany]
    unfold cacheGet
    rw [List.find?_append]
    have h1 : c.find? (fun e => e.1 == k) = none := by
      rw [List.find?_eq_none]
      intro e he hbe
      exact hany (List.any_eq_true.mpr ⟨e, he, hbe⟩)
    simp [h1, List.find?]

/-- The deletion loop over a key snapshot removes exactly the entries whose
key both occurs in the snapshot and has the matching first segment. -/
theorem delSweep_eq_filter (A : String) (ks : List String) (acc : Cache) :
    ks.foldl (fun acc k => if some A = some (keySeg k) then cacheDel acc k else acc) acc =
      acc.filter (fun e => !(decide (A = keySeg e.1) && ks.any (fun k2 => e.1 == k2))) := by
  induction ks generalizing acc with
  | nil => simp
  | cons k ks ih =>
    simp only [List.foldl_cons]
    rw [ih]
    by_cases hAk : A = keySeg k
    · rw [if_pos (by rw [hAk])]
      unfold cacheDel
      rw [List.filter_filter]
      apply List.filter_congr
      intro e _
      by_cases hek : e.1 = k
      · simp [hek, hAk]
      · have hb : (e.1 == k) = false := beq_eq_false_iff_ne.mpr hek
        simp [hb, hek]
    · rw [if_neg (fun hc => hAk (Option.some.inj hc))]
      apply List.filter_congr
      intro e _
      by_cases hek : e.1 = k
      · simp [hek, hAk]
      · have hb : (e.1 == k) = false := beq_eq_false_iff_ne.mpr hek
        simp [hb]

/-- The decodable-payload branch of the configuration-change handler keeps
exactly the entries whose key's first `"--"`-segment differs from the
notified flag key. -/
theorem configChangeSweep_some (A : String) (c : Cache) :
    configChangeSweep (some A) c = c.filter (fun e => !(decide (A = keySeg e.1))) := by
  unfold configChangeSweep
  rw [delSweep_eq_filter]
  apply List.filter_congr
  intro e he
  have hmem : (cacheKeys c).any (fun k2 => e.1 == k2) = true := by
    refine List.any_eq_true.mpr ⟨e.1, ?_, by simp⟩
    exact List.mem_map_of_mem Prod.fst he
  simp [hmem]

/-- A payload without a usable `flagKey` makes the deletion loop a no-op. -/
theorem configChangeSweep_noneFlagKey (c : Cache) :
    configChangeSweep none c = c := by
  unfold configChangeSweep
  generalize cacheKeys c = ks
  induction ks generalizing c with
  | nil => rfl
  | cons k ks ih => simp [ih c]

end FlagdWeb

namespace FlagdWeb

/-! ## Claim theorems -/

/-- C2: a resolution call of any of the four value kinds issued while the
provider is not ready returns the caller-supplied default value with the
standardized error reason and performs no network call; the error code is
`PROVIDER_NOT_READY` when the connection manager has not terminally failed
and `CONNECTION_ERROR` when retries have been exhausted (the only writer of
the `connectionError` flag is the exhausted branch of the termination
callback). -/
theorem readiness_gate_blocks_resolution
    (vs : ResolutionDetails → Nat) (st : ProviderState) (flagKey : String)
    (db : Bool) (ds : String) (dn : Int) (dj : Json) (ctx : Json)
    (rb : Except RemoteFailure (RemoteResponse Bool))
    (rs : Except RemoteFailure (RemoteResponse String))
    (rn : Except RemoteFailure (RemoteResponse Int))
    (ro : Except RemoteFailure ObjectResponse)
    (h : st.providerReady = false) :
    resolveBooleanEvaluation vs st flagKey db ctx rb =
      { details := { value := .b db, reason := REASON_ERROR,
                     errorCode := some (if st.connectionError then ERROR_CONNECTION_ERROR
                                        else ErrorCode.PROVIDER_NOT_READY) },
        cache := st.cache, networkCalls := 0, gated := true } ∧
    resolveStringEvaluation vs st flagKey ds ctx rs =
      { details := { value := .s ds, reason := REASON_ERROR,
                     errorCode := some (if st.connectionError then ERROR_CONNECTION_ERROR
                                        else ErrorCode.PROVIDER_NOT_READY) },
        cache := st.cache, networkCalls := 0, gated := true } ∧
    resolveNumberEvaluation vs st flagKey dn ctx rn =
      { details := { value := .n dn, reason := REASON_ERROR,
                     errorCode := some (if st.connectionError then ERROR_CONNECTION_ERROR
                                        else ErrorCode.PROVIDER_NOT_READY) },
        cache := st.cache, networkCalls := 0, gated := true } ∧
    resolveObjectEvaluation vs st flagKey dj ctx ro =
      { details := { value := .o dj, reason := REASON_ERROR,
                     errorCode := some (if st.connectionError then ERROR_CONNECTION_ERROR
                                        else ErrorCode.PROVIDER_NOT_READY) },
        cache := st.cache, networkCalls := 0, gated := true } := by
  refine ⟨?_, ?_, ?_, ?_⟩ <;>
    simp [resolveBooleanEvaluation, resolveStringEvaluation, resolveNumberEvaluation,
      resolveObjectEvaluation, h]

/-- Witness for C2: a freshly constructed, never-connected provider gates a
boolean resolution with `PROVIDER_NOT_READY`. -/
theorem readiness_gate_blocks_resolution_witness :
    resolveBooleanEvaluation (fun _ => 0)
      { providerReady := false, connectionError := false, cacheActive := false,
        cacheMaxBytes := 0, cache := [] }
      "flag" true (.obj []) (.ok ⟨true, "STATIC", "on"⟩) =
    { details := { value := .b true, reason := REASON_ERROR,
                   errorCode := some ErrorCode.PROVIDER_NOT_READY },
      cache := [], networkCalls := 0, gated := true } := by
  simpa using (readiness_gate_blocks_resolution (fun _ => 0)
    { providerReady := false, connectionError := false, cacheActive := false,
      cacheMaxBytes := 0, cache := [] }
    "flag" true "" 0 .null (.obj []) (.ok ⟨true, "STATIC", "on"⟩)
    (.ok ⟨"", "", ""⟩) (.ok ⟨0, "", ""⟩) (.ok ⟨none, "", ""⟩) rfl).1

/-- C3: a resolution call of any kind whose remote invocation fails never
raises (each resolver is a total function into `ResolveOutcome`): it
returns the caller's default value with the error reason and the code
produced by `ErrorResponse`, which maps not-found to `FLAG_NOT_FOUND`,
invalid-argument to `TYPE_MISMATCH`, transport unavailability to the
disabled variant (`ERROR_DISABLED = "DISABLED"`), data-loss to
`PARSE_ERROR`, and everything else to `GENERAL`. -/
theorem failure_mapping_resolution
    (vs : ResolutionDetails → Nat) (st : ProviderState) (flagKey : String)
    (db : Bool) (ds : String) (dn : Int) (dj : Json) (ctx : Json)
    (err : RemoteFailure)
    (hready : st.providerReady = true)
    (hmiss : st.cacheActive = false ∨ cacheGet st.cache (reqHash flagKey ctx) = none) :
    resolveBooleanEvaluation vs st flagKey db ctx (.error err) =
      { details := { value := .b db, reason := REASON_ERROR,
                     errorCode := some (ErrorResponse err) },
        cache := st.cache, networkCalls := 1, gated := false } ∧
    resolveStringEvaluation vs st flagKey ds ctx (.error err) =
      { details := { value := .s ds, reason := REASON_ERROR,
                     errorCode := some (ErrorResponse err) },
        cache := st.cache, networkCalls := 1, gated := false } ∧
    resolveNumberEvaluation vs st flagKey dn ctx (.error err) =
      { details := { value := .n dn, reason := REASON_ERROR,
                     errorCode := some (ErrorResponse err) },
        cache := st.cache, networkCalls := 1, gated := false } ∧
    resolveObjectEvaluation vs st flagKey dj ctx (.error err) =
      { details := { value := .o dj, reason := REASON_ERROR,
                     errorCode := some (ErrorResponse err) },
        cache := st.cache, networkCalls := 1, gated := false } ∧
    ErrorResponse ⟨some .notFound⟩ = ErrorCode.FLAG_NOT_FOUND ∧
    ErrorResponse ⟨some .invalidArgument⟩ = ErrorCode.TYPE_MISMATCH ∧
    ErrorResponse ⟨some .unavailable⟩ = ERROR_DISABLED ∧
    ErrorResponse ⟨some .dataLoss⟩ = ErrorCode.PARSE_ERROR ∧
    ErrorResponse ⟨some .otherCode⟩ = ErrorCode.GENERAL ∧
    ErrorResponse ⟨none⟩ = ErrorCode.GENERAL := by
  refine ⟨?_, ?_, ?_, ?_, rfl, rfl, rfl, rfl, rfl, rfl⟩ <;>
  · rcases hmiss with hca | hg
    · cases hgv : cacheGet st.cache (reqHash flagKey ctx) <;>
        simp [resolveBooleanEvaluation, resolveStringEvaluation, resolveNumberEvaluation,
          resolveObjectEvaluation, hready, hca, hgv]
    · cases hca : st.cacheActive <;>
        simp [resolveBooleanEvaluation, resolveStringEvaluation, resolveNumberEvaluation,
          resolveObjectEvaluation, hready, hca, hg]

/-- Witness for C3: a failed boolean resolution against a ready provider
with an empty cache returns the default with `FLAG_NOT_FOUND`. -/
theorem failure_mapping_resolution_witness :
    resolveBooleanEvaluation (fun _ => 0)
      { providerReady := true, connectionError := false, cacheActive := false,
        cacheMaxBytes := 0, cache := [] }
      "flag" true (.obj []) (.error ⟨some .notFound⟩) =
    { details := { value := .b true, reason := REASON_ERROR,
                   errorCode := some ErrorCode.FLAG_NOT_FOUND },
      cache := [], networkCalls := 1, gated := false } := by
  simpa using (failure_mapping_resolution (fun _ => 0)
    { providerReady := true, connectionError := false, cacheActive := false,
      cacheMaxBytes := 0, cache := [] }
    "flag" true "" 0 .null (.obj []) ⟨some .notFound⟩ rfl (Or.inl rfl)).1

/-- C6: with `cacheMaxBytes = N > 0`, immediately after every insertion the
estimated aggregate size (key bytes plus value bytes across all entries)
either does not exceed `N` or the cache is empty; the insertion that
crosses the threshold removes all entries, not a subset. -/
theorem cache_size_flush_invariant
    (vs : ResolutionDetails → Nat) (maxBytes : Nat) (c : Cache) (k : String)
    (v : ResolutionDetails) (h : 0 < maxBytes) :
    (cacheStatsSize vs (cacheSet maxBytes vs c k v) ≤ maxBytes ∨
      cacheSet maxBytes vs c k v = []) ∧
    (cacheStatsSize vs (cacheSetRaw c k v) > maxBytes →
      cacheSet maxBytes vs c k v = []) := by
  have hne : maxBytes ≠ 0 := Nat.pos_iff_ne_zero.mp h
  unfold cacheSet
  simp only [hne, if_true, ne_eq, not_false_iff]
  by_cases hgt : cacheStatsSize vs (cacheSetRaw c k v) > maxBytes
  · simp [hgt]
  · simp [hgt]
    omega

/-- Witness for C6: with `maxBytes = 10`, inserting an entry estimated at
`9 + 4` bytes flushes the whole cache. -/
theorem cache_size_flush_invariant_witness :
    cacheSet 10 (fun _ => 4) [] "flagA--aa" { value := .b true, reason := "STATIC" } = [] :=
  (cache_size_flush_invariant (fun _ => 4) 10 [] "flagA--aa"
    { value := .b true, reason := "STATIC" } (by decide)).2 (by decide)

/-- C9 (amended): the stream-termination callback never touches the cache:
entries survive a stream disconnection unchanged on both the retry branch
and the terminal-failure branch. -/
theorem stream_termination_preserves_cache (st : ProviderState) (i maxRetries : Nat) :
    (handleStreamTermination st i maxRetries).cache = st.cache := by
  unfold handleStreamTermination
  split <;> rfl

/-- C9 counterexample: a cached entry survives a stream disconnection (the
claim asserts no cached entry survives, i.e. that this cache would be
empty afterwards). -/
theorem cache_survives_disconnection_cex :
    (handleStreamTermination
      { providerReady := true, connectionError := false, cacheActive := true,
        cacheMaxBytes := 0,
        cache := [("flagA--aa", { value := .b true, reason := "STATIC" })] }
      0 0).cache =
      [("flagA--aa", { value := .b true, reason := "STATIC" })] ∧
    [("flagA--aa", ({ value := .b true, reason := "STATIC" } : ResolutionDetails))] ≠
      ([] : Cache) := by
  exact ⟨rfl, by simp⟩

end FlagdWeb

namespace FlagdWeb

/-- C10: readiness is permanent.  Once `providerReady` is true, no
operation of the instance (stream message, stream termination — including
the retry-exhaustion branch that sets `connectionError` — or any of the
four resolution calls) resets it, and every resolution call issued in a
ready state skips the readiness-gate branch. -/
theorem readiness_permanent (st : ProviderState) (op : ProviderOp)
    (h : st.providerReady = true) :
    (applyOp st op).providerReady = true ∧
    (∀ vs k d c r, (resolveBooleanEvaluation vs st k d c r).gated = false) ∧
    (∀ vs k d c r, (resolveStringEvaluation vs st k d c r).gated = false) ∧
    (∀ vs k d c r, (resolveNumberEvaluation vs st k d c r).gated = false) ∧
    (∀ vs k d c r, (resolveObjectEvaluation vs st k d c r).gated = false) := by
  refine ⟨?_, ?_, ?_, ?_, ?_⟩
  · cases op with
    | streamMessage m =>
      simp only [applyOp, handleStreamMessage]
      split
      · rfl
      · split
        · split
          · exact h
          · exact h
        · exact h
    | streamTermination i maxRetries =>
      simp only [applyOp, handleStreamTermination]
      split
      · exact h
      · exact h
    | resolveBoolean vs k d c r => exact h
    | resolveString vs k d c r => exact h
    | resolveNumber vs k d c r => exact h
    | resolveObject vs k d c r => exact h
  · intro vs k d c r
    cases hca : st.cacheActive <;> cases hg : cacheGet st.cache (reqHash k c) <;>
      rcases r with err | res <;>
      simp [resolveBooleanEvaluation, h, hca, hg]
  · intro vs k d c r
    cases hca : st.cacheActive <;> cases hg : cacheGet st.cache (reqHash k c) <;>
      rcases r with err | res <;>
      simp [resolveStringEvaluation, h, hca, hg]
  · intro vs k d c r
    cases hca : st.cacheActive <;> cases hg : cacheGet st.cache (reqHash k c) <;>
      rcases r with err | res <;>
      simp [resolveNumberEvaluation, h, hca, hg]
  · intro vs k d c r
    (cases hca : st.cacheActive <;> cases hg : cacheGet st.cache (reqHash k c) <;>
      rcases r with err | res <;> try cases hv : res.value) <;>
      simp_all [resolveObjectEvaluation]

/-- Witness for C10: after `provider_ready`, a stream termination that
exhausts retries (setting `connectionError`) leaves the provider ready. -/
theorem readiness_permanent_witness :
    (applyOp
      { providerReady := true, connectionError := false, cacheActive := true,
        cacheMaxBytes := 0, cache := [] }
      (.streamTermination 0 0)).providerReady = true :=
  (readiness_permanent
    { providerReady := true, connectionError := false, cacheActive := true,
      cacheMaxBytes := 0, cache := [] }
    (.streamTermination 0 0) rfl).1

end FlagdWeb

namespace FlagdWeb

/-- C5 (amended): handling a decodable `configuration_change` notification
with `flagKey = A` removes exactly the cached entries whose composite key's
first `"--"`-separated segment equals `A`; every entry whose first segment
differs from `A` survives unchanged.  (The claim's stronger reading — that
the entries of every flag `B ≠ A` survive — fails when `B` itself contains
the separator, see the counterexample.) -/
theorem config_change_targeted_invalidation (st : ProviderState) (A : String)
    (body : Json) (hbody : getStringField body "flagKey" = some A) :
    (handleStreamMessage st
        { type := EVENT_CONFIGURATION_CHANGE, data := some body }).cache =
      st.cache.filter (fun e => !(decide (A = keySeg e.1))) ∧
    (∀ e ∈ st.cache, keySeg e.1 = A →
      e ∉ (handleStreamMessage st
        { type := EVENT_CONFIGURATION_CHANGE, data := some body }).cache) ∧
    (∀ e ∈ st.cache, keySeg e.1 ≠ A →
      e ∈ (handleStreamMessage st
        { type := EVENT_CONFIGURATION_CHANGE, data := some body }).cache) := by
  have h1 : (handleStreamMessage st
      { type := EVENT_CONFIGURATION_CHANGE, data := some body }).cache =
      st.cache.filter (fun e => !(decide (A = keySeg e.1))) := by
    show configChangeSweep (getStringField body "flagKey") st.cache = _
    rw [hbody]
    exact configChangeSweep_some A st.cache
  refine ⟨h1, ?_, ?_⟩
  · intro e he hA hmem
    rw [h1] at hmem
    simp [List.mem_filter, hA] at hmem
  · intro e he hne
    rw [h1]
    refine List.mem_filter.mpr ⟨he, ?_⟩
    simp only [Bool.not_eq_true']
    exact decide_eq_false (fun hEq => hne hEq.symm)

/-- C5 counterexample: `"x--y"` and `"x"` are distinct flags, but because
the composite key of `"x--y"` starts with segment `"x"`, a configuration
change for flag `"x"` deletes the entry cached for flag `"x--y"` as well —
the whole cache empties. -/
theorem config_change_cross_flag_removal_cex :
    ("x--y" : String) ≠ "x" ∧
    (handleStreamMessage
      { providerReady := true, connectionError := false, cacheActive := true,
        cacheMaxBytes := 0,
        cache := [(reqHash "x" (.obj []), { value := .b true, reason := "STATIC" }),
                  (reqHash "x--y" (.obj []), { value := .b false, reason := "STATIC" })] }
      { type := EVENT_CONFIGURATION_CHANGE,
        data := some (.obj [("type", .str "update"), ("source", .str "s"),
                            ("flagKey", .str "x")]) }).cache = [] := by
  exact ⟨by decide, rfl⟩

/-- Witness for C5: with two entries cached under flags `"A"` and `"B"`
(separator-free names), a change notification for `"A"` removes exactly
the `"A"` entry. -/
theorem config_change_targeted_invalidation_witness :
    (handleStreamMessage
      { providerReady := true, connectionError := false, cacheActive := true,
        cacheMaxBytes := 0,
        cache := [(reqHash "A" (.obj []), { value := .b true, reason := "STATIC" }),
                  (reqHash "B" (.obj []), { value := .b false, reason := "STATIC" })] }
      { type := EVENT_CONFIGURATION_CHANGE,
        data := some (.obj [("type", .str "update"), ("source", .str "s"),
                            ("flagKey", .str "A")]) }).cache =
      [(reqHash "A" (.obj []), { value := .b true, reason := "STATIC" }),
       (reqHash "B" (.obj []),
        { value := .b false, reason := "STATIC" })].filter
          (fun e => !(decide ("A" = keySeg e.1))) :=
  (config_change_targeted_invalidation
    { providerReady := true, connectionError := false, cacheActive := true,
      cacheMaxBytes := 0,
      cache := [(reqHash "A" (.obj []), { value := .b true, reason := "STATIC" }),
                (reqHash "B" (.obj []), { value := .b false, reason := "STATIC" })] }
    "A" (.obj [("type", .str "update"), ("source", .str "s"), ("flagKey", .str "A")])
    rfl).1

/-- C8 (amended): a `configuration_change` message carrying no payload at
all flushes the whole cache and the handler returns normally (it is a
total function); but a payload that decodes to JSON lacking a string
`flagKey` field is not re-validated — the handler runs the targeted
deletion loop with an undefined flag key, which matches no entry, so the
cache is left unchanged and stale entries can remain. -/
theorem malformed_notification_handling (st : ProviderState) (body : Json)
    (hnofield : getStringField body "flagKey" = none) :
    (handleStreamMessage st
      { type := EVENT_CONFIGURATION_CHANGE, data := none }).cache = [] ∧
    (handleStreamMessage st
      { type := EVENT_CONFIGURATION_CHANGE, data := some body }).cache = st.cache := by
  constructor
  · rfl
  · show configChangeSweep (getStringField body "flagKey") st.cache = st.cache
    rw [hnofield]
    exact configChangeSweep_noneFlagKey st.cache

/-- Witness for C8 (amended): a payload-less notification empties a
one-entry cache. -/
theorem malformed_notification_handling_witness :
    (handleStreamMessage
      { providerReady := true, connectionError := false, cacheActive := true,
        cacheMaxBytes := 0,
        cache := [("flagA--aa", { value := .b true, reason := "STATIC" })] }
      { type := EVENT_CONFIGURATION_CHANGE, data := none }).cache = [] :=
  (malformed_notification_handling
    { providerReady := true, connectionError := false, cacheActive := true,
      cacheMaxBytes := 0,
      cache := [("flagA--aa", { value := .b true, reason := "STATIC" })] }
    (.obj []) rfl).1

/-- C8 counterexample: a `configuration_change` whose payload decodes to
`\x7b"type": "update", "source": "s"\x7d` — which cannot be decoded into the
expected `\x7btype, source, flagKey\x7d` body — does not trigger `flushAll`:
the stale entry survives, contradicting the claim. -/
theorem missing_flag_field_not_flushed_cex :
    (handleStreamMessage
      { providerReady := true, connectionError := false, cacheActive := true,
        cacheMaxBytes := 0,
        cache := [("flagA--aa", { value := .b true, reason := "STATIC" })] }
      { type := EVENT_CONFIGURATION_CHANGE,
        data := some (.obj [("type", .str "update"), ("source", .str "s")]) }).cache =
      [("flagA--aa", { value := .b true, reason := "STATIC" })] ∧
    [("flagA--aa", ({ value := .b true, reason := "STATIC" } : ResolutionDetails))] ≠
      ([] : Cache) :=
  ⟨rfl, by simp⟩

end FlagdWeb

namespace FlagdWeb

/-- Unrolling the all-failures retry loop from attempt index `i` when
`maxRetries = i + n`: `n + 1` further attempts are made, the waits are the
jittered delays of attempts `i, i + 1, ...`, and the loop ends with the
terminal connection-error flag set. -/
theorem initStreamFailTrace_eq (rand : Nat → ℚ) (maxRetries : Nat) :
    ∀ (n i : Nat), maxRetries = i + n → ∀ (h : i ≤ maxRetries),
      initStreamFailTrace rand maxRetries i h =
        { attempts := n + 1,
          delays := (List.range n).map (fun j : Nat => ((i : ℚ) + (j : ℚ) + 1) * rand (i + j) * 300),
          connectionError := true } := by
  intro n
  induction n with
  | zero =>
    intro i hin h
    rw [initStreamFailTrace, dif_neg (by omega : ¬i ≠ maxRetries)]
    simp
  | succ m ih =>
    intro i hin h
    have hne : i ≠ maxRetries := by omega
    rw [initStreamFailTrace, dif_pos hne, ih (i + 1) (by omega)]
    simp only [RetryTrace.mk.injEq]
    refine ⟨by omega, ?_, trivial⟩
    rw [List.range_succ_eq_map, List.map_cons, List.map_map]
    congr 1
    · norm_num
    · apply List.map_congr_left
      intro j hj
      have h1 : i + 1 + j = i + (j + 1) := by omega
      simp only [Function.comp_apply, h1]
      push_cast
      ring

/-- C7: when every connection attempt fails, the retry loop started by the
constructor (`initStream(0, maxRetries)`) performs exactly
`maxRetries + 1` total connection attempts (3 when `maxRetries = 2`, 1
when `maxRetries = 0`), waits `(attempt + 1) * random * 300` milliseconds
between consecutive attempts, and then enters the terminal
connection-error state. -/
theorem retry_termination (maxRetries : Nat) (rand : Nat → ℚ) :
    initStreamFailTrace rand maxRetries 0 (Nat.zero_le maxRetries) =
      { attempts := maxRetries + 1,
        delays := (List.range maxRetries).map (fun j : Nat => ((j : ℚ) + 1) * rand j * 300),
        connectionError := true } := by
  rw [initStreamFailTrace_eq rand maxRetries maxRetries 0 (by omega) (Nat.zero_le _)]
  simp

end FlagdWeb

namespace FlagdWeb

/-- C1 counterexample: two evaluation contexts containing the same
key/value pairs in different insertion order (the field lists are
permutations of each other) produce different cache keys for the same
flag: the provider hashes the order-preserving serialization without any
canonicalization, so the serialized forms and hence the MD5 digests
differ. -/
theorem fingerprint_order_sensitive_cex :
    List.Perm [("a", Json.str "x"), ("b", Json.str "y")]
      [("b", Json.str "y"), ("a", Json.str "x")] ∧
    reqHash "my-flag" (.obj [("a", .str "x"), ("b", .str "y")]) ≠
      reqHash "my-flag" (.obj [("b", .str "y"), ("a", .str "x")]) :=
  ⟨List.Perm.swap _ _ _, by decide⟩

/-- C1 (amended): the cache key is a pure, deterministic function of the
flag key and the context's serialized form — equal serializations (in
particular, identical field order) yield equal cache keys.  Contexts with
the same key/value pairs in different insertion order serialize
differently and can produce different keys (see the counterexample). -/
theorem fingerprint_deterministic_of_serialization_eq
    (flagKey : String) (c1 c2 : Json)
    (h : serializeContext c1 = serializeContext c2) :
    reqHash flagKey c1 = reqHash flagKey c2 := by
  unfold reqHash
  rw [h]

/-- Witness for C1 (amended): two syntactically different contexts with
the same serialized form share a cache key. -/
theorem fingerprint_deterministic_witness :
    reqHash "my-flag" (.obj [("a", .str "x")]) =
      reqHash "my-flag" (.obj [("a", .str ("x" ++ ""))]) :=
  fingerprint_deterministic_of_serialization_eq "my-flag"
    (.obj [("a", .str "x")]) (.obj [("a", .str ("x" ++ ""))]) rfl

/-- C4: with caching enabled on a ready provider, (i) a resolution whose
fingerprint is present in the cache returns the stored entry verbatim
(same value, reason, variant) and performs no remote call — for each of
the four value kinds; (ii) a successful cache-miss resolution stores its
result through `cache.set`; (iii) when no size threshold is configured
(`cacheMaxBytes = 0`, so the freshly stored entry stays live), a second
resolution of the identical `(flagKey, context)` pair returns the first
call's result with zero remote invocations. -/
theorem cache_hit_avoids_network
    (vs : ResolutionDetails → Nat) (st : ProviderState) (flagKey : String)
    (db : Bool) (ds : String) (dn : Int) (dj : Json) (ctx : Json)
    (hready : st.providerReady = true) (hactive : st.cacheActive = true) :
    (∀ d rb, cacheGet st.cache (reqHash flagKey ctx) = some d →
      resolveBooleanEvaluation vs st flagKey db ctx rb =
        { details := d, cache := st.cache, networkCalls := 0, gated := false }) ∧
    (∀ d rs, cacheGet st.cache (reqHash flagKey ctx) = some d →
      resolveStringEvaluation vs st flagKey ds ctx rs =
        { details := d, cache := st.cache, networkCalls := 0, gated := false }) ∧
    (∀ d rn, cacheGet st.cache (reqHash flagKey ctx) = some d →
      resolveNumberEvaluation vs st flagKey dn ctx rn =
        { details := d, cache := st.cache, networkCalls := 0, gated := false }) ∧
    (∀ d ro, cacheGet st.cache (reqHash flagKey ctx) = some d →
      resolveObjectEvaluation vs st flagKey dj ctx ro =
        { details := d, cache := st.cache, networkCalls := 0, gated := false }) ∧
    (∀ res : RemoteResponse Bool, cacheGet st.cache (reqHash flagKey ctx) = none →
      (resolveBooleanEvaluation vs st flagKey db ctx (.ok res)).cache =
        cacheSet st.cacheMaxBytes vs st.cache (reqHash flagKey ctx)
          (resolveBooleanEvaluation vs st flagKey db ctx (.ok res)).details ∧
      (st.cacheMaxBytes = 0 →
        ∀ rb2, resolveBooleanEvaluation vs
            { st with cache := (resolveBooleanEvaluation vs st flagKey db ctx (.ok res)).cache }
            flagKey db ctx rb2 =
          { details := (resolveBooleanEvaluation vs st flagKey db ctx (.ok res)).details,
            cache := (resolveBooleanEvaluation vs st flagKey db ctx (.ok res)).cache,
            networkCalls := 0, gated := false })) := by
  refine ⟨?_, ?_, ?_, ?_, ?_⟩
  · intro d rb hd
    simp [resolveBooleanEvaluation, hready, hactive, hd]
  · intro d rs hd
    simp [resolveStringEvaluation, hready, hactive, hd]
  · intro d rn hd
    simp [resolveNumberEvaluation, hready, hactive, hd]
  · intro d ro hd
    simp [resolveObjectEvaluation, hready, hactive, hd]
  · intro res hmiss
    have hcall : resolveBooleanEvaluation vs st flagKey db ctx (.ok res) =
        { details := { value := .b res.value, reason := res.reason,
                       variant := some res.variant },
          cache := cacheSet st.cacheMaxBytes vs st.cache (reqHash flagKey ctx)
            { value := .b res.value, reason := res.reason, variant := some res.variant },
          networkCalls := 1, gated := false } := by
      simp [resolveBooleanEvaluation, hready, hactive, hmiss]
    refine ⟨by rw [hcall], ?_⟩
    intro hmb rb2
    rw [hcall]
    have hraw : cacheSet st.cacheMaxBytes vs st.cache (reqHash flagKey ctx)
        { value := .b res.value, reason := res.reason, variant := some res.variant } =
        cacheSetRaw st.cache (reqHash flagKey ctx)
          { value := .b res.value, reason := res.reason, variant := some res.variant } := by
      simp [cacheSet, hmb]
    rw [hraw]
    have hhit := cacheGet_setRaw_self st.cache (reqHash flagKey ctx)
      { value := .b res.value, reason := res.reason, variant := some res.variant }
    simp [resolveBooleanEvaluation, hready, hactive, hhit]

/-- Witness for C4: after a first boolean resolution populates the cache,
the identical second call returns the stored details with zero remote
invocations, even though its own remote outcome would have failed. -/
theorem cache_hit_avoids_network_witness :
    resolveBooleanEvaluation (fun _ => 0)
      { providerReady := true, connectionError := false, cacheActive := true,
        cacheMaxBytes := 0,
        cache := (resolveBooleanEvaluation (fun _ => 0)
          { providerReady := true, connectionError := false, cacheActive := true,
            cacheMaxBytes := 0, cache := [] }
          "flag" false (.obj [("a", .str "x")]) (.ok ⟨true, "STATIC", "on"⟩)).cache }
      "flag" false (.obj [("a", .str "x")]) (.error ⟨some .unavailable⟩) =
    { details := (resolveBooleanEvaluation (fun _ => 0)
        { providerReady := true, connectionError := false, cacheActive := true,
          cacheMaxBytes := 0, cache := [] }
        "flag" false (.obj [("a", .str "x")]) (.ok ⟨true, "STATIC", "on"⟩)).details,
      cache := (resolveBooleanEvaluation (fun _ => 0)
        { providerReady := true, connectionError := false, cacheActive := true,
          cacheMaxBytes := 0, cache := [] }
        "flag" false (.obj [("a", .str "x")]) (.ok ⟨true, "STATIC", "on"⟩)).cache,
      networkCalls := 0, gated := false } :=
  ((cache_hit_avoids_network (fun _ => 0)
      { providerReady := true, connectionError := false, cacheActive := true,
        cacheMaxBytes := 0, cache := [] }
      "flag" false "" 0 .null (.obj [("a", .str "x")]) rfl rfl).2.2.2.2
    ⟨true, "STATIC", "on"⟩ rfl).2 rfl (.error ⟨some .unavailable⟩)

end FlagdWeb
